import Mathlib

/-!
Verification development for the CH32V003 bring-up layer
(src/software/tiny_pacman/include/system.c).

The source code is straight-line C that writes memory-mapped registers and
busy-polls hardware flags.  Each function is embedded as a trace of register
events, transcribed statement by statement from the source; an interpreter
gives the write events their effect on a register state.  The startup memory
loops of handle_reset and the SysTick delay condition are embedded as Lean
functions over natural numbers with explicit 32-bit wraparound.
-/

set_option maxHeartbeats 1000000

namespace CH32V003

/-! Register-field constants of the CH32V003 register map, with the values the
source uses through its hardware header. -/

def RCC_HSION : Nat := 0x00000001
def RCC_HSIRDY : Nat := 0x00000002
def RCC_HSEON : Nat := 0x00010000
def RCC_HSERDY : Nat := 0x00020000
def RCC_PLLON : Nat := 0x01000000
def RCC_PLLRDY : Nat := 0x02000000
def RCC_SW : Nat := 0x00000003
def RCC_SW_HSE : Nat := 0x00000001
def RCC_SW_PLL : Nat := 0x00000002
def RCC_SWS : Nat := 0x0000000C
def RCC_HPRE_DIV1 : Nat := 0x00000000
def RCC_PLLSRC_HSI_Mul2 : Nat := 0x00000000
def RCC_PLLSRC_HSE_Mul2 : Nat := 0x00010000
def RCC_AFIOEN : Nat := 0x00000001
def AFIO_PCFR1_PA12_REMAP : Nat := 0x00008000
def FLASH_ACTLR_LATENCY_0 : Nat := 0x00000000
def FLASH_ACTLR_LATENCY_1 : Nat := 0x00000001
def HSITRIM : Nat := 16
def CLK_DIV : Nat := RCC_HPRE_DIV1
def IWDG_PVU : Nat := 0x00000001
def IWDG_RVU : Nat := 0x00000002
def PWR_CTLR_PDDS : Nat := 0x00000002
def PFIC_SLEEPDEEP : Nat := 0x00000004
def RCC_LSION : Nat := 0x00000001
def RCC_LSIRDY : Nat := 0x00000002

/-- All 32 bits set: the value of a bitwise complement of 0 on a 32-bit word. -/
def mask32 : Nat := 4294967295

/-- 2 to the 32: modulus of 32-bit unsigned arithmetic. -/
def M32 : Nat := 4294967296

/-- 2 to the 31: the first value whose int32 reinterpretation is negative. -/
def H32 : Nat := 2147483648

/-- The memory-mapped registers touched by the embedded functions. -/
inductive Reg where
  | FLASH_ACTLR
  | RCC_INTR
  | RCC_CFGR0
  | RCC_CTLR
  | RCC_APB2PCENR
  | AFIO_PCFR1
  | IWDG_CTLR
  | IWDG_STATR
  | IWDG_PSCR
  | IWDG_RLDR
  | PWR_CTLR
  | PFIC_SCTLR
  | RCC_RSTSCKR
  deriving DecidableEq

/-- One observable step of a register-access sequence:
a plain store, a read-modify-write store (covers the assignments written
with Oreq and AndNoteq compound operators in C), the three busy-poll shapes
occurring in the source, and the two wait instructions. -/
inductive Event where
  | write (r : Reg) (v : Nat)
  | rmw (r : Reg) (andMask orMask : Nat)
  | pollSet (r : Reg) (m : Nat)
  | pollClear (r : Reg) (m : Nat)
  | pollEq (r : Reg) (m v : Nat)
  | wfi
  | wfe
  deriving DecidableEq

/-- Embedding of a C compound assignment R |= m. -/
def orE (r : Reg) (m : Nat) : Event := .rmw r mask32 m

/-- Embedding of a C compound assignment R &= ~m. -/
def andNotE (r : Reg) (m : Nat) : Event := .rmw r (mask32 ^^^ m) 0

/-! Traces of the clock-initialization functions, transcribed from the source
statement by statement. -/

/-- Trace of CLK_init_HSI (system.c lines 41-46). -/
def CLK_init_HSI_trace : List Event := [
  .write .FLASH_ACTLR FLASH_ACTLR_LATENCY_0,
  .write .RCC_INTR 0x009F0000,
  .write .RCC_CFGR0 CLK_DIV,
  .write .RCC_CTLR (RCC_HSION ||| (HSITRIM <<< 3))
]

/-- Trace of CLK_init_HSI_PLL (system.c lines 49-57). -/
def CLK_init_HSI_PLL_trace : List Event := [
  .write .FLASH_ACTLR FLASH_ACTLR_LATENCY_1,
  .write .RCC_INTR 0x009F0000,
  .write .RCC_CFGR0 (CLK_DIV ||| RCC_PLLSRC_HSI_Mul2),
  .write .RCC_CTLR (RCC_HSION ||| RCC_PLLON ||| (HSITRIM <<< 3)),
  .pollSet .RCC_CTLR RCC_PLLRDY,
  .rmw .RCC_CFGR0 (mask32 ^^^ RCC_SW) RCC_SW_PLL,
  .pollEq .RCC_CFGR0 RCC_SWS 0x08
]

/-- Trace of CLK_init_HSE (system.c lines 60-69). -/
def CLK_init_HSE_trace : List Event := [
  orE .RCC_APB2PCENR RCC_AFIOEN,
  orE .AFIO_PCFR1 AFIO_PCFR1_PA12_REMAP,
  .write .FLASH_ACTLR FLASH_ACTLR_LATENCY_0,
  .write .RCC_CTLR (RCC_HSION ||| RCC_HSEON ||| RCC_PLLON),
  .pollSet .RCC_CTLR RCC_HSERDY,
  .write .RCC_CFGR0 (RCC_HPRE_DIV1 ||| RCC_SW_HSE),
  .pollEq .RCC_CFGR0 RCC_SWS 0x04,
  .write .RCC_CTLR RCC_HSEON
]

/-- Trace of CLK_init_HSE_PLL (system.c lines 72-85). -/
def CLK_init_HSE_PLL_trace : List Event := [
  orE .RCC_APB2PCENR RCC_AFIOEN,
  orE .AFIO_PCFR1 AFIO_PCFR1_PA12_REMAP,
  .write .RCC_CTLR (RCC_HSION ||| RCC_HSEON ||| RCC_PLLON),
  .pollSet .RCC_CTLR RCC_HSERDY,
  .write .RCC_CFGR0 (RCC_SW_HSE ||| RCC_HPRE_DIV1),
  .write .FLASH_ACTLR FLASH_ACTLR_LATENCY_1,
  .write .RCC_CTLR RCC_HSEON,
  .write .RCC_CFGR0 (RCC_SW_HSE ||| RCC_HPRE_DIV1 ||| RCC_PLLSRC_HSE_Mul2),
  .write .RCC_CTLR (RCC_HSEON ||| RCC_PLLON),
  .pollSet .RCC_CTLR RCC_PLLRDY,
  .write .RCC_CFGR0 (RCC_SW_PLL ||| RCC_HPRE_DIV1 ||| RCC_PLLSRC_HSE_Mul2),
  .pollEq .RCC_CFGR0 RCC_SWS 0x08
]

/-- Modelled from the spec: the body of LSI_enable lives in the hardware
header, which is not part of the given sources; per the spec it enables the
internal low-speed clock, and readiness flags are only ever confirmed by
busy-polling. -/
def LSI_enable_trace : List Event := [
  orE .RCC_RSTSCKR RCC_LSION,
  .pollSet .RCC_RSTSCKR RCC_LSIRDY
]

/-- Trace of IWDG_start (system.c lines 111-120), for a given period ms. -/
def IWDG_start_trace (ms : Nat) : List Event :=
  LSI_enable_trace ++ [
    .write .IWDG_CTLR 0x5555,
    .pollClear .IWDG_STATR IWDG_PVU,
    .write .IWDG_PSCR 0b111,
    .pollClear .IWDG_STATR IWDG_RVU,
    .write .IWDG_RLDR (ms >>> 1),
    .write .IWDG_CTLR 0xAAAA,
    .write .IWDG_CTLR 0xCCCC
  ]

/-- Trace of IWDG_reload (system.c lines 123-128), for a given period ms. -/
def IWDG_reload_trace (ms : Nat) : List Event := [
  .write .IWDG_CTLR 0x5555,
  .pollClear .IWDG_STATR IWDG_RVU,
  .write .IWDG_RLDR (ms >>> 1),
  .write .IWDG_CTLR 0xAAAA
]

/-- Trace of SLEEP_WFI_now (system.c lines 144-147). -/
def SLEEP_WFI_now_trace : List Event := [
  andNotE .PWR_CTLR PWR_CTLR_PDDS,
  .wfi
]

/-- Trace of SLEEP_WFE_now (system.c lines 150-153). -/
def SLEEP_WFE_now_trace : List Event := [
  andNotE .PWR_CTLR PWR_CTLR_PDDS,
  .wfe
]

/-- Trace of STDBY_WFI_now (system.c lines 156-161). -/
def STDBY_WFI_now_trace : List Event := [
  orE .PWR_CTLR PWR_CTLR_PDDS,
  orE .PFIC_SCTLR PFIC_SLEEPDEEP,
  .wfi,
  andNotE .PFIC_SCTLR PFIC_SLEEPDEEP
]

/-- Trace of STDBY_WFE_now (system.c lines 164-169). -/
def STDBY_WFE_now_trace : List Event := [
  orE .PWR_CTLR PWR_CTLR_PDDS,
  orE .PFIC_SCTLR PFIC_SLEEPDEEP,
  .wfe,
  andNotE .PFIC_SCTLR PFIC_SLEEPDEEP
]

/-! Interpreter: the effect of a trace on a register state.  Poll and wait
events read hardware-driven flags and do not modify processor-visible
register state. -/

/-- A register state: the current 32-bit value of each register. -/
def Regs : Type := Reg → Nat

/-- Point update of a register state. -/
def setReg (s : Regs) (r : Reg) (v : Nat) : Regs :=
  fun q => if q = r then v else s q

/-- Effect of one event on the register state. -/
def Event.apply (s : Regs) : Event → Regs
  | .write r v => setReg s r (v % M32)
  | .rmw r a o => setReg s r (((s r &&& a) ||| o) % M32)
  | .pollSet _ _ => s
  | .pollClear _ _ => s
  | .pollEq _ _ _ => s
  | .wfi => s
  | .wfe => s

/-- Effect of a whole trace on the register state. -/
def runTrace (s : Regs) (t : List Event) : Regs :=
  t.foldl Event.apply s

/-! Trace-inspection utilities used to state the temporal claims. -/

/-- Indices of the events of a trace satisfying a classifier. -/
def hits (p : Event → Bool) (t : List Event) : List Nat :=
  (t.enum.filter fun x => p x.2).map Prod.fst

/-- Some event of the trace satisfies the classifier. -/
def occursB (p : Event → Bool) (t : List Event) : Bool :=
  t.any p

/-- Every p-event of the trace comes strictly before every q-event. -/
def eachBefore (p q : Event → Bool) (t : List Event) : Bool :=
  (hits p t).all fun i => (hits q t).all fun j => Nat.blt i j

/-- Every q-event of the trace is strictly preceded by some p-event. -/
def onlyAfter (p q : Event → Bool) (t : List Event) : Bool :=
  (hits q t).all fun j => (hits p t).any fun i => Nat.blt i j

/-- There are events matching the given classifiers at strictly increasing
indices, each at index at least lo. -/
def chainFrom (lo : Nat) : List (Event → Bool) → List Event → Bool
  | [], _ => true
  | p :: ps, t => (hits p t).any fun i => Nat.ble lo i && chainFrom (i + 1) ps t

/-- The trace contains a strictly ordered chain of events matching the given
classifiers in the given order. -/
def chainB (ps : List (Event → Bool)) (t : List Event) : Bool :=
  chainFrom 0 ps t

/-! Event classifiers for the claims. -/

/-- A write of the flash wait-state register. -/
def isLatWrite : Event → Bool
  | .write .FLASH_ACTLR _ => true
  | _ => false

/-- A store to RCC_CTLR whose value has the given bit set (an enabling
store for the oscillator whose ON bit that is). -/
def ctlrWriteWith (bit : Nat) : Event → Bool
  | .write .RCC_CTLR v => v.testBit bit
  | _ => false

/-- A store to RCC_CTLR whose value clears both HSION (bit 0) and
PLLON (bit 24): the store that disables the internal oscillator and the
multiplier together. -/
def ctlrDisablesHSIandPLL : Event → Bool
  | .write .RCC_CTLR v => !v.testBit 0 && !v.testBit 24
  | _ => false

/-- A busy-poll of RCC_CTLR whose mask tests the given readiness bit. -/
def ctlrPollOf (bit : Nat) : Event → Bool
  | .pollSet .RCC_CTLR m => m.testBit bit
  | _ => false

/-- A busy-poll of the clock-source selector switched-status field (SWS)
for the given field value. -/
def swsPollFor (v : Nat) : Event → Bool
  | .pollEq .RCC_CFGR0 m w => m == RCC_SWS && w == v
  | _ => false

/-- Any busy-poll of the selector switched-status field. -/
def swsPollAny : Event → Bool
  | .pollEq .RCC_CFGR0 m _ => m == RCC_SWS
  | _ => false

/-- Any busy-poll event at all. -/
def isPollEvent : Event → Bool
  | .pollSet _ _ => true
  | .pollClear _ _ => true
  | .pollEq _ _ _ => true
  | _ => false

/-- A store or read-modify-write of RCC_CFGR0 whose effect sets the
clock-source selector field SW to the given value. -/
def swWriteOf (v : Nat) : Event → Bool
  | .write .RCC_CFGR0 x => x &&& RCC_SW == v
  | .rmw .RCC_CFGR0 a o => (a &&& RCC_SW == 0) && (o &&& RCC_SW == v)
  | _ => false

/-- A wait-for-interrupt or wait-for-event instruction. -/
def isWait : Event → Bool
  | .wfi => true
  | .wfe => true
  | _ => false

/-- A read-modify-write of PFIC_SCTLR that sets the SLEEPDEEP bit (bit 2). -/
def setsDeep : Event → Bool
  | .rmw .PFIC_SCTLR _ o => o.testBit 2
  | _ => false

/-- A read-modify-write of PFIC_SCTLR that clears the SLEEPDEEP bit. -/
def clearsDeep : Event → Bool
  | .rmw .PFIC_SCTLR a o => !a.testBit 2 && !o.testBit 2
  | _ => false

/-- The reload value a trace stores into the watchdog reload register,
if any store to it occurs. -/
def writtenReload (t : List Event) : Option Nat :=
  t.findSome? fun e =>
    match e with
    | .write .IWDG_RLDR v => some v
    | _ => none

/-- Modelled from the spec: the watchdog reload register keeps only as many
low bits as its hardware width holds (the spec: the period is implicitly
truncated by the hardware register width); the counter is 12 bits wide, so
the stored value is the written value modulo 2 to the 12. -/
def rldrStored (v : Nat) : Nat := v % 4096

/-! The SysTick delay function DLY_ticks (system.c lines 99-102), embedded
over natural numbers with explicit 32-bit wraparound. -/

/-- Reinterpretation of a 32-bit unsigned value as a signed int32. -/
def toInt32 (x : Nat) : Int :=
  if x < H32 then (x : Int) else (x : Int) - (M32 : Int)

/-- The local variable of DLY_ticks: end = STK_CNT + n in uint32. -/
def DLY_end (cnt0 n : Nat) : Nat := (cnt0 + n) % M32

/-- The loop-exit condition of DLY_ticks at a counter reading now:
the int32 reinterpretation of the uint32 difference now - end is
nonnegative. -/
def DLY_exit (cnt0 n now : Nat) : Prop :=
  0 ≤ toInt32 ((now + (M32 - DLY_end cnt0 n)) % M32)

instance (cnt0 n now : Nat) : Decidable (DLY_exit cnt0 n now) := by
  unfold DLY_exit; infer_instance

/-! The startup memory loops of handle_reset (system.c lines 317-324),
embedded over a word-addressed memory. -/

/-- A word-addressed memory: the 32-bit word stored at each word address. -/
def Mem : Type := Nat → Nat

/-- A store of one word: the memory after writing v at address d. -/
def memUpd (m : Mem) (d v : Nat) : Mem :=
  fun a => if a = d then v else m a

/-- The BSS-clearing loop of handle_reset:
dst = sbss; while (dst < ebss) store 0 at dst, dst = dst + 1. -/
def clearLoop (m : Mem) (dst ebss : Nat) : Mem :=
  if _h : dst < ebss then
    clearLoop (memUpd m dst 0) (dst + 1) ebss
  else m
termination_by ebss - dst
decreasing_by omega

/-- The data-copy loop of handle_reset:
while (dst < edata) store the word at src into dst, advance both. -/
def copyLoop (m : Mem) (src dst edata : Nat) : Mem :=
  if _h : dst < edata then
    copyLoop (memUpd m dst (m src)) (src + 1) (dst + 1) edata
  else m
termination_by edata - dst
decreasing_by omega

/-- The memory effect of handle_reset before control transfer: clear the
region from the start of BSS (inclusive) to its end (exclusive), then copy
the initialized-data image from its load address to its run address. -/
def handle_reset_mem (m : Mem) (sbss ebss lma vma edata : Nat) : Mem :=
  copyLoop (clearLoop m sbss ebss) lma vma edata

/-- Any store or read-modify-write of the clock configuration register
RCC_CFGR0 (the register holding the clock-source selector field). -/
def writesSel : Event → Bool
  | .write .RCC_CFGR0 _ => true
  | .rmw .RCC_CFGR0 _ _ => true
  | _ => false

/-- The trace has exactly one flash wait-state store and it comes strictly
before the last RCC_CTLR store that sets the given oscillator ON bit
(the enabling store left in effect when the function returns). -/
def latencyBeforeLastEnable (t : List Event) (bit : Nat) : Bool :=
  match hits isLatWrite t, (hits (ctlrWriteWith bit) t).getLast? with
  | [i], some j => Nat.blt i j
  | _, _ => false

end CH32V003

namespace CH32V003

/-! Helper lemmas about the startup memory loops. -/

/-- The clearing loop stores zero into exactly the addresses of the
half-open interval from dst to ebss. -/
theorem clearLoop_eq (m : Mem) (dst ebss a : Nat) :
    clearLoop m dst ebss a = if dst ≤ a ∧ a < ebss then 0 else m a := by
  generalize hk : ebss - dst = k
  induction k generalizing m dst with
  | zero =>
    rw [clearLoop, dif_neg (by omega : ¬ dst < ebss),
      if_neg (by omega : ¬(dst ≤ a ∧ a < ebss))]
  | succ k ih =>
    have h : dst < ebss := by omega
    rw [clearLoop, dif_pos h, ih (memUpd m dst 0) (dst + 1) (by omega)]
    by_cases h1 : dst + 1 ≤ a ∧ a < ebss
    · rw [if_pos h1, if_pos (by omega : dst ≤ a ∧ a < ebss)]
    · rw [if_neg h1]
      by_cases ha : a = dst
      · rw [if_pos (by omega : dst ≤ a ∧ a < ebss)]
        simp only [memUpd, if_pos ha]
      · rw [if_neg (by omega : ¬(dst ≤ a ∧ a < ebss))]
        simp only [memUpd, if_neg ha]

/-- The copying loop, when the source block does not overlap the
destination block, makes each destination address hold the word of the
source block at the same offset and leaves all other addresses unchanged. -/
theorem copyLoop_eq (m : Mem) (src dst edata a : Nat)
    (hdisj : edata ≤ src ∨ src + (edata - dst) ≤ dst) :
    copyLoop m src dst edata a =
      if dst ≤ a ∧ a < edata then m (src + (a - dst)) else m a := by
  generalize hk : edata - dst = k
  induction k generalizing m src dst with
  | zero =>
    rw [copyLoop, dif_neg (by omega : ¬ dst < edata),
      if_neg (by omega : ¬(dst ≤ a ∧ a < edata))]
  | succ k ih =>
    have h : dst < edata := by omega
    have hdisj2 : edata ≤ src + 1 ∨ (src + 1) + (edata - (dst + 1)) ≤ dst + 1 := by
      omega
    rw [copyLoop, dif_pos h,
      ih (memUpd m dst (m src)) (src + 1) (dst + 1) hdisj2 (by omega)]
    by_cases h1 : dst + 1 ≤ a ∧ a < edata
    · rw [if_pos h1, if_pos (by omega : dst ≤ a ∧ a < edata)]
      simp only [memUpd]
      rw [if_neg (by omega : ¬(src + 1 + (a - (dst + 1)) = dst))]
      congr 1
      omega
    · rw [if_neg h1]
      by_cases ha : a = dst
      · rw [if_pos (by omega : dst ≤ a ∧ a < edata)]
        simp only [memUpd, if_pos ha]
        congr 1
        omega
      · rw [if_neg (by omega : ¬(dst ≤ a ∧ a < edata))]
        simp only [memUpd, if_neg ha]

/-! Bit-level helper lemmas for 32-bit read-modify-write stores. -/

/-- Bits of a 32-bit AND-NOT store: clearing a single-bit mask clears that
bit and preserves every other bit of a 32-bit value. -/
theorem testBit_andNotMask (x b msk i : Nat) (hx : x < M32) (hb : b < 32)
    (hmsk : msk = 2 ^ b) :
    (((x &&& (mask32 ^^^ msk)) ||| 0) % M32).testBit i
      = if i = b then false else x.testBit i := by
  have hM : M32 = 2 ^ 32 := rfl
  have hm : mask32 = 2 ^ 32 - 1 := rfl
  rw [Nat.or_zero, hM, hm, hmsk, Nat.testBit_mod_two_pow, Nat.testBit_land,
    Nat.testBit_xor, Nat.testBit_two_pow_sub_one, Nat.testBit_two_pow]
  rcases Nat.lt_or_ge i 32 with hi | hi
  · by_cases hib : i = b
    · simp [hib, hi, hb]
    · have hbi : b ≠ i := by omega
      simp [hi, hib, hbi]
  · have hxi : x.testBit i = false :=
      Nat.testBit_eq_false_of_lt
        (lt_of_lt_of_le (hM ▸ hx) (Nat.pow_le_pow_right (by norm_num) hi))
    have hib : i ≠ b := by omega
    have hbi : b ≠ i := by omega
    simp [Nat.not_lt.mpr hi, hib, hbi, hxi]

/-- Bits of a 32-bit OR store: setting a single-bit mask sets that bit and
preserves every other bit of a 32-bit value. -/
theorem testBit_orMask (x b msk i : Nat) (hx : x < M32) (hb : b < 32)
    (hmsk : msk = 2 ^ b) :
    (((x &&& mask32) ||| msk) % M32).testBit i
      = if i = b then true else x.testBit i := by
  have hM : M32 = 2 ^ 32 := rfl
  have hm : mask32 = 2 ^ 32 - 1 := rfl
  rw [hM, hm, hmsk, Nat.testBit_mod_two_pow, Nat.testBit_lor, Nat.testBit_land,
    Nat.testBit_two_pow_sub_one, Nat.testBit_two_pow]
  rcases Nat.lt_or_ge i 32 with hi | hi
  · by_cases hib : i = b
    · simp [hib, hi, hb]
    · have hbi : b ≠ i := by omega
      simp [hi, hib, hbi]
  · have hxi : x.testBit i = false :=
      Nat.testBit_eq_false_of_lt
        (lt_of_lt_of_le (hM ▸ hx) (Nat.pow_le_pow_right (by norm_num) hi))
    have hib : i ≠ b := by omega
    have hbi : b ≠ i := by omega
    simp [Nat.not_lt.mpr hi, hib, hbi, hxi]

/-! Claim theorems. -/

/-- Claim C1, as stated, is false on the code: in CLK_init_HSE_PLL the store
that disables the internal oscillator and the multiplier together (the store
of RCC_HSEON alone to RCC_CTLR) is not preceded by any busy-poll of the
selector switched-status field; the code disables them right after writing
the selector, without a switched-status readback. -/
theorem C1_counterexample :
    onlyAfter swsPollAny ctlrDisablesHSIandPLL CLK_init_HSE_PLL_trace = false := by
  rfl

/-- Claim C1 amended: in CLK_init_HSE_PLL the internal oscillator and the
multiplier are disabled only after the clock-source selector has been written
to the external source (with no switched-status readback in between), and
only then is the multiplier re-enabled, re-locked against the external
reference by polling its readiness flag, selected, and the selection
confirmed: the trace contains, in strict order, the disabling store, a store
re-enabling the multiplier, a poll of the multiplier readiness flag, the
selector store choosing the multiplier, and the switched-status poll. -/
theorem C1_amended_relock_order :
    occursB ctlrDisablesHSIandPLL CLK_init_HSE_PLL_trace = true ∧
    onlyAfter (swWriteOf RCC_SW_HSE) ctlrDisablesHSIandPLL
      CLK_init_HSE_PLL_trace = true ∧
    chainB [ctlrDisablesHSIandPLL, ctlrWriteWith 24, ctlrPollOf 25,
      swWriteOf RCC_SW_PLL, swsPollFor 0x08] CLK_init_HSE_PLL_trace = true := by
  exact ⟨rfl, rfl, rfl⟩

/-- Claim C2: in every clock-initialization variant the trace has exactly one
flash wait-state store, and it comes strictly before the enabling store of
the oscillator that the variant leaves as the basis of the system clock (the
last RCC_CTLR store setting that oscillator ON bit: HSION for the internal
variant, HSEON for the external variant, PLLON for the multiplier variants);
in the multiplier variants it also precedes every selector store that
switches the system clock to the multiplier. -/
theorem C2_latency_order :
    latencyBeforeLastEnable CLK_init_HSI_trace 0 = true ∧
    latencyBeforeLastEnable CLK_init_HSI_PLL_trace 24 = true ∧
    latencyBeforeLastEnable CLK_init_HSE_trace 16 = true ∧
    latencyBeforeLastEnable CLK_init_HSE_PLL_trace 24 = true ∧
    eachBefore isLatWrite (ctlrWriteWith 0) CLK_init_HSI_trace = true ∧
    eachBefore isLatWrite (ctlrWriteWith 24) CLK_init_HSI_PLL_trace = true ∧
    eachBefore isLatWrite (ctlrWriteWith 16) CLK_init_HSE_trace = true ∧
    eachBefore isLatWrite (swWriteOf RCC_SW_PLL) CLK_init_HSI_PLL_trace = true ∧
    eachBefore isLatWrite (swWriteOf RCC_SW_PLL) CLK_init_HSE_PLL_trace = true := by
  exact ⟨rfl, rfl, rfl, rfl, rfl, rfl, rfl, rfl, rfl⟩

/-- Claim C3, as stated, is false on the code: CLK_init_HSI_PLL contains no
readiness poll of the internal oscillator at all (no busy-poll of RCC_CTLR
testing the HSIRDY bit), so no chain starting with a reference-oscillator
readiness poll exists in its trace; the code enables the internal oscillator
and the multiplier in one store without reading the reference readiness
flag. -/
theorem C3_counterexample :
    chainB [ctlrPollOf 1, ctlrWriteWith 24, ctlrPollOf 25,
      swWriteOf RCC_SW_PLL, swsPollFor 0x08] CLK_init_HSI_PLL_trace = false ∧
    occursB (ctlrPollOf 1) CLK_init_HSI_PLL_trace = false := by
  exact ⟨rfl, rfl⟩

/-- Claim C3 amended: in the external-reference multiplier variant the full
three-stage chain holds in order (external-oscillator readiness poll, then a
multiplier-enabling store, then the multiplier readiness poll, then the
selector store choosing the multiplier, then the switched-status poll); in
the internal-reference multiplier variant the chain from the multiplier
readiness poll onward holds in order, while the reference oscillator is
enabled in the same store as the multiplier with no readiness readback. -/
theorem C3_amended_chain :
    chainB [ctlrPollOf 17, ctlrWriteWith 24, ctlrPollOf 25,
      swWriteOf RCC_SW_PLL, swsPollFor 0x08] CLK_init_HSE_PLL_trace = true ∧
    chainB [ctlrPollOf 25, swWriteOf RCC_SW_PLL, swsPollFor 0x08]
      CLK_init_HSI_PLL_trace = true ∧
    occursB (ctlrPollOf 1) CLK_init_HSI_PLL_trace = false := by
  exact ⟨rfl, rfl, rfl⟩

/-- Claim C4, as stated, is false on the code: the internal-only variant
CLK_init_HSI never observes the selector switched-status field; its trace
contains no poll of that field for the requested source (field value 0) and
indeed no poll event of any kind, so the selection is assumed rather than
confirmed by readback. -/
theorem C4_counterexample :
    occursB (swsPollFor 0x00) CLK_init_HSI_trace = false ∧
    occursB isPollEvent CLK_init_HSI_trace = false := by
  exact ⟨rfl, rfl⟩

/-- Claim C4 amended: in the three variants other than internal-only, the
trace polls the selector switched-status field for the requested source
(the multiplier value for the multiplier variants, the external value for
the external variant), and every selector store comes strictly before that
poll, so the confirmed selection still stands when the function returns; the
internal-only variant performs no readback poll at all. -/
theorem C4_amended_confirm :
    occursB (swsPollFor 0x08) CLK_init_HSI_PLL_trace = true ∧
    eachBefore writesSel (swsPollFor 0x08) CLK_init_HSI_PLL_trace = true ∧
    occursB (swsPollFor 0x04) CLK_init_HSE_trace = true ∧
    eachBefore writesSel (swsPollFor 0x04) CLK_init_HSE_trace = true ∧
    occursB (swsPollFor 0x08) CLK_init_HSE_PLL_trace = true ∧
    eachBefore writesSel (swsPollFor 0x08) CLK_init_HSE_PLL_trace = true ∧
    occursB isPollEvent CLK_init_HSI_trace = false := by
  exact ⟨rfl, rfl, rfl, rfl, rfl, rfl, rfl⟩

/-- Claim C7: the boundary period 8191 makes both watchdog operations write
the reload value 4095, the largest value the 12-bit reload counter holds, so
it is stored unchanged; the period 8192 is not rejected (the store still
happens, unconditionally, for every period) and its written value 4096 is
truncated by the register width to 0 rather than stored as an in-range
distinct period. -/
theorem C7_watchdog_boundary :
    writtenReload (IWDG_start_trace 8191) = some 4095 ∧
    writtenReload (IWDG_reload_trace 8191) = some 4095 ∧
    rldrStored 4095 = 4095 ∧ 4095 = 4096 - 1 ∧
    writtenReload (IWDG_start_trace 8192) = some 4096 ∧
    writtenReload (IWDG_reload_trace 8192) = some 4096 ∧
    rldrStored 4096 = 0 ∧
    (∀ ms : Nat, writtenReload (IWDG_start_trace ms) = some (ms >>> 1)) ∧
    (∀ ms : Nat, writtenReload (IWDG_reload_trace ms) = some (ms >>> 1)) := by
  exact ⟨rfl, rfl, rfl, rfl, rfl, rfl, rfl, fun _ => rfl, fun _ => rfl⟩

/-- Claim C8: in both standby operations the read-modify-write that sets the
deep-sleep flag comes strictly before the wait instruction, and the
read-modify-write that clears it comes strictly after the wait instruction;
all three events occur. -/
theorem C8_sleepdeep_order :
    eachBefore setsDeep isWait STDBY_WFI_now_trace = true ∧
    eachBefore isWait clearsDeep STDBY_WFI_now_trace = true ∧
    occursB setsDeep STDBY_WFI_now_trace = true ∧
    occursB clearsDeep STDBY_WFI_now_trace = true ∧
    occursB isWait STDBY_WFI_now_trace = true ∧
    eachBefore setsDeep isWait STDBY_WFE_now_trace = true ∧
    eachBefore isWait clearsDeep STDBY_WFE_now_trace = true ∧
    occursB setsDeep STDBY_WFE_now_trace = true ∧
    occursB clearsDeep STDBY_WFE_now_trace = true ∧
    occursB isWait STDBY_WFE_now_trace = true := by
  exact ⟨rfl, rfl, rfl, rfl, rfl, rfl, rfl, rfl, rfl, rfl⟩

/-- Claim C9: for every period both watchdog operations write the same
reload value, the period halved rounding down; in particular an odd period
2k+1 writes k (losing one millisecond), and the periods 0 and 1 both write
0. -/
theorem C9_reload_value :
    (∀ ms : Nat, writtenReload (IWDG_start_trace ms) = some (ms / 2)) ∧
    (∀ ms : Nat, writtenReload (IWDG_reload_trace ms) = some (ms / 2)) ∧
    (∀ k : Nat, writtenReload (IWDG_start_trace (2 * k + 1)) = some k) ∧
    writtenReload (IWDG_start_trace 0) = some 0 ∧
    writtenReload (IWDG_start_trace 1) = some 0 ∧
    writtenReload (IWDG_reload_trace 0) = some 0 ∧
    writtenReload (IWDG_reload_trace 1) = some 0 := by
  have hdiv : ∀ ms : Nat, ms >>> 1 = ms / 2 := fun ms => Nat.shiftRight_one ms
  refine ⟨fun ms => ?_, fun ms => ?_, fun k => ?_, rfl, rfl, rfl, rfl⟩
  · show some (ms >>> 1) = some (ms / 2)
    rw [hdiv]
  · show some (ms >>> 1) = some (ms / 2)
    rw [hdiv]
  · show some ((2 * k + 1) >>> 1) = some k
    rw [hdiv]
    congr 1
    omega

/-- Claim C5, as stated, is false on the code: for the tick count 2^31 + 1
the loop-exit condition of DLY_ticks already holds at the very first counter
reading, while the counter has advanced 0 ticks since the call began, so the
function returns without waiting even though the requested count is
positive. -/
theorem C5_counterexample :
    DLY_exit 0 2147483649 ((0 + 0) % M32) ∧ (0 : Nat) < 2147483649 := by
  exact ⟨by decide, by decide⟩

/-- Claim C5 amended: for every tick count up to 2^31, DLY_ticks returns
only after the free-running counter has advanced by at least that many ticks
since the call began, including when the counter wraps around its maximum
during the wait: if the loop-exit condition holds at the counter reading
observed after e elapsed ticks, then e is at least the requested count. -/
theorem C5_amended_bound (cnt0 n e : Nat) (h0 : cnt0 < M32) (hn : n ≤ H32)
    (hex : DLY_exit cnt0 n ((cnt0 + e) % M32)) : n ≤ e := by
  simp only [DLY_exit, DLY_end, toInt32, M32, H32] at hex h0 hn
  split at hex <;> omega

/-- Witness for the amended C5 theorem at a concrete input: the hypotheses
hold at cnt0 = 0, n = 3, e = 3, and the theorem yields the bound there. -/
theorem C5_amended_bound_witness :
    (0 : Nat) < M32 ∧ (3 : Nat) ≤ H32 ∧ DLY_exit 0 3 ((0 + 3) % M32) ∧
      (3 : Nat) ≤ 3 :=
  ⟨by decide, by decide, by decide,
    C5_amended_bound 0 3 3 (by decide) (by decide) (by decide)⟩

/-- Claim C6: when the startup memory phase of handle_reset finishes
(immediately before control is transferred; the remaining steps write only
peripheral registers, not these memory words), provided the linker-given
regions are disjoint in the usual way — the initialized-data run region and
its load image are both disjoint from the BSS region, and the load image is
disjoint from the run region — every word of the BSS region from its start
(inclusive) to its end (exclusive) reads zero, and every word of the
initialized-data run region equals the corresponding word of the load
image. -/
theorem C6_memory_init (m : Mem) (sbss ebss lma vma edata : Nat)
    (h1 : edata ≤ sbss ∨ ebss ≤ vma)
    (h2 : lma + (edata - vma) ≤ sbss ∨ ebss ≤ lma)
    (h3 : edata ≤ lma ∨ lma + (edata - vma) ≤ vma) :
    (∀ a, sbss ≤ a → a < ebss →
      handle_reset_mem m sbss ebss lma vma edata a = 0) ∧
    (∀ a, vma ≤ a → a < edata →
      handle_reset_mem m sbss ebss lma vma edata a = m (lma + (a - vma))) := by
  constructor
  · intro a ha1 ha2
    rw [handle_reset_mem, copyLoop_eq _ _ _ _ _ h3,
      if_neg (by omega : ¬(vma ≤ a ∧ a < edata)), clearLoop_eq,
      if_pos (⟨ha1, ha2⟩ : sbss ≤ a ∧ a < ebss)]
  · intro a ha1 ha2
    rw [handle_reset_mem, copyLoop_eq _ _ _ _ _ h3,
      if_pos (⟨ha1, ha2⟩ : vma ≤ a ∧ a < edata), clearLoop_eq,
      if_neg (by omega : ¬(sbss ≤ lma + (a - vma) ∧ lma + (a - vma) < ebss))]

/-- Witness for the C6 theorem at a concrete layout: BSS words 6 and 7, load
image at words 0 and 1, run region at words 3 and 4, over the memory holding
a + 100 at address a; the hypotheses hold and the theorem yields that BSS
word 6 reads zero and run word 3 equals load word 0. -/
theorem C6_memory_init_witness :
    ((5 : Nat) ≤ 6 ∨ (8 : Nat) ≤ 3) ∧
    ((0 : Nat) + (5 - 3) ≤ 6 ∨ (8 : Nat) ≤ 0) ∧
    ((5 : Nat) ≤ 0 ∨ (0 : Nat) + (5 - 3) ≤ 3) ∧
    handle_reset_mem (fun a => a + 100) 6 8 0 3 5 6 = 0 ∧
    handle_reset_mem (fun a => a + 100) 6 8 0 3 5 3
      = (fun a => a + 100) (0 + (3 - 3)) := by
  refine ⟨by omega, by omega, by omega, ?_, ?_⟩
  · exact (C6_memory_init (fun a => a + 100) 6 8 0 3 5 (by omega) (by omega)
      (by omega)).1 6 (by omega) (by omega)
  · exact (C6_memory_init (fun a => a + 100) 6 8 0 3 5 (by omega) (by omega)
      (by omega)).2 3 (by omega) (by omega)

/-- Claim C10: the normal-sleep operations clear exactly the PDDS bit
(bit 1) of the power control register — every other bit of it and every
other register is unchanged — while the standby operations set PDDS and
never clear it before returning, so PDDS is still set when they return, and
of the core control register only the deep-sleep flag (bit 2) is cleared,
its other bits and all other registers unchanged. -/
theorem C10_power_frame (s : Regs) (hp : s Reg.PWR_CTLR < M32)
    (hf : s Reg.PFIC_SCTLR < M32) :
    ((runTrace s SLEEP_WFI_now_trace) Reg.PWR_CTLR).testBit 1 = false ∧
    (∀ i, i ≠ 1 → ((runTrace s SLEEP_WFI_now_trace) Reg.PWR_CTLR).testBit i
        = (s Reg.PWR_CTLR).testBit i) ∧
    (∀ r, r ≠ Reg.PWR_CTLR → (runTrace s SLEEP_WFI_now_trace) r = s r) ∧
    ((runTrace s SLEEP_WFE_now_trace) Reg.PWR_CTLR).testBit 1 = false ∧
    (∀ i, i ≠ 1 → ((runTrace s SLEEP_WFE_now_trace) Reg.PWR_CTLR).testBit i
        = (s Reg.PWR_CTLR).testBit i) ∧
    (∀ r, r ≠ Reg.PWR_CTLR → (runTrace s SLEEP_WFE_now_trace) r = s r) ∧
    ((runTrace s STDBY_WFI_now_trace) Reg.PWR_CTLR).testBit 1 = true ∧
    (∀ i, i ≠ 1 → ((runTrace s STDBY_WFI_now_trace) Reg.PWR_CTLR).testBit i
        = (s Reg.PWR_CTLR).testBit i) ∧
    ((runTrace s STDBY_WFI_now_trace) Reg.PFIC_SCTLR).testBit 2 = false ∧
    (∀ i, i ≠ 2 → ((runTrace s STDBY_WFI_now_trace) Reg.PFIC_SCTLR).testBit i
        = (s Reg.PFIC_SCTLR).testBit i) ∧
    (∀ r, r ≠ Reg.PWR_CTLR → r ≠ Reg.PFIC_SCTLR →
      (runTrace s STDBY_WFI_now_trace) r = s r) ∧
    ((runTrace s STDBY_WFE_now_trace) Reg.PWR_CTLR).testBit 1 = true ∧
    (∀ i, i ≠ 1 → ((runTrace s STDBY_WFE_now_trace) Reg.PWR_CTLR).testBit i
        = (s Reg.PWR_CTLR).testBit i) ∧
    ((runTrace s STDBY_WFE_now_trace) Reg.PFIC_SCTLR).testBit 2 = false ∧
    (∀ i, i ≠ 2 → ((runTrace s STDBY_WFE_now_trace) Reg.PFIC_SCTLR).testBit i
        = (s Reg.PFIC_SCTLR).testBit i) ∧
    (∀ r, r ≠ Reg.PWR_CTLR → r ≠ Reg.PFIC_SCTLR →
      (runTrace s STDBY_WFE_now_trace) r = s r) := by
  have hpdds : PWR_CTLR_PDDS = 2 ^ 1 := rfl
  have hdeep : PFIC_SLEEPDEEP = 2 ^ 2 := rfl
  have eSleepI : (runTrace s SLEEP_WFI_now_trace) Reg.PWR_CTLR
      = ((s Reg.PWR_CTLR &&& (mask32 ^^^ PWR_CTLR_PDDS)) ||| 0) % M32 := rfl
  have eSleepE : (runTrace s SLEEP_WFE_now_trace) Reg.PWR_CTLR
      = ((s Reg.PWR_CTLR &&& (mask32 ^^^ PWR_CTLR_PDDS)) ||| 0) % M32 := rfl
  have eStdbyIP : (runTrace s STDBY_WFI_now_trace) Reg.PWR_CTLR
      = ((s Reg.PWR_CTLR &&& mask32) ||| PWR_CTLR_PDDS) % M32 := rfl
  have eStdbyEP : (runTrace s STDBY_WFE_now_trace) Reg.PWR_CTLR
      = ((s Reg.PWR_CTLR &&& mask32) ||| PWR_CTLR_PDDS) % M32 := rfl
  have eStdbyIF : (runTrace s STDBY_WFI_now_trace) Reg.PFIC_SCTLR
      = (((((s Reg.PFIC_SCTLR &&& mask32) ||| PFIC_SLEEPDEEP) % M32)
          &&& (mask32 ^^^ PFIC_SLEEPDEEP)) ||| 0) % M32 := rfl
  have eStdbyEF : (runTrace s STDBY_WFE_now_trace) Reg.PFIC_SCTLR
      = (((((s Reg.PFIC_SCTLR &&& mask32) ||| PFIC_SLEEPDEEP) % M32)
          &&& (mask32 ^^^ PFIC_SLEEPDEEP)) ||| 0) % M32 := rfl
  have hmid : ((s Reg.PFIC_SCTLR &&& mask32) ||| PFIC_SLEEPDEEP) % M32 < M32 :=
    Nat.mod_lt _ (by norm_num [M32])
  have hfic : ∀ i : Nat,
      ((((((s Reg.PFIC_SCTLR &&& mask32) ||| PFIC_SLEEPDEEP) % M32)
          &&& (mask32 ^^^ PFIC_SLEEPDEEP)) ||| 0) % M32).testBit i
        = if i = 2 then false else (s Reg.PFIC_SCTLR).testBit i := by
    intro i
    rw [testBit_andNotMask _ 2 _ _ hmid (by norm_num) hdeep]
    by_cases hi : i = 2
    · rw [if_pos hi, if_pos hi]
    · rw [if_neg hi, if_neg hi,
        testBit_orMask _ 2 _ _ hf (by norm_num) hdeep, if_neg hi]
  refine ⟨?_, ?_, ?_, ?_, ?_, ?_, ?_, ?_, ?_, ?_, ?_, ?_, ?_, ?_, ?_, ?_⟩
  · rw [eSleepI, testBit_andNotMask _ 1 _ _ hp (by norm_num) hpdds, if_pos rfl]
  · intro i hi
    rw [eSleepI, testBit_andNotMask _ 1 _ _ hp (by norm_num) hpdds, if_neg hi]
  · intro r hr
    show (if r = Reg.PWR_CTLR then _ else s r) = s r
    rw [if_neg hr]
  · rw [eSleepE, testBit_andNotMask _ 1 _ _ hp (by norm_num) hpdds, if_pos rfl]
  · intro i hi
    rw [eSleepE, testBit_andNotMask _ 1 _ _ hp (by norm_num) hpdds, if_neg hi]
  · intro r hr
    show (if r = Reg.PWR_CTLR then _ else s r) = s r
    rw [if_neg hr]
  · rw [eStdbyIP, testBit_orMask _ 1 _ _ hp (by norm_num) hpdds, if_pos rfl]
  · intro i hi
    rw [eStdbyIP, testBit_orMask _ 1 _ _ hp (by norm_num) hpdds, if_neg hi]
  · rw [eStdbyIF, hfic, if_pos rfl]
  · intro i hi
    rw [eStdbyIF, hfic, if_neg hi]
  · intro r hr1 hr2
    show (if r = Reg.PFIC_SCTLR then _
      else if r = Reg.PFIC_SCTLR then _
      else if r = Reg.PWR_CTLR then _ else s r) = s r
    rw [if_neg hr2, if_neg hr2, if_neg hr1]
  · rw [eStdbyEP, testBit_orMask _ 1 _ _ hp (by norm_num) hpdds, if_pos rfl]
  · intro i hi
    rw [eStdbyEP, testBit_orMask _ 1 _ _ hp (by norm_num) hpdds, if_neg hi]
  · rw [eStdbyEF, hfic, if_pos rfl]
  · intro i hi
    rw [eStdbyEF, hfic, if_neg hi]
  · intro r hr1 hr2
    show (if r = Reg.PFIC_SCTLR then _
      else if r = Reg.PFIC_SCTLR then _
      else if r = Reg.PWR_CTLR then _ else s r) = s r
    rw [if_neg hr2, if_neg hr2, if_neg hr1]

/-- Witness for the C10 theorem at a concrete state: all registers hold 255,
which is below the 32-bit bound, and the theorem yields that the PDDS bit is
cleared by the normal-sleep operation there. -/
theorem C10_power_frame_witness :
    ((fun _ : Reg => (255 : Nat)) Reg.PWR_CTLR) < M32 ∧
    ((fun _ : Reg => (255 : Nat)) Reg.PFIC_SCTLR) < M32 ∧
    ((runTrace (fun _ : Reg => (255 : Nat)) SLEEP_WFI_now_trace)
      Reg.PWR_CTLR).testBit 1 = false :=
  ⟨by decide, by decide,
    (C10_power_frame (fun _ : Reg => (255 : Nat)) (by decide) (by decide)).1⟩

end CH32V003
